import Mathlib

/-!  Shallow embedding of the TicketMonarch telemetry collector:
     the per-page capture/segmentation engine (chrome-extension/content.js)
     and the coordinating service worker (chrome-extension/background.js).
     Timers and event listeners become an explicit event alphabet; each
     handler becomes a pure state-transition function; one-way message
     delivery to the coordinator becomes an emitted-payload output. -/

namespace TM

/-- JS millisecond clock values (performance.now / Date.now); the two
    clocks are conflated into one input time parameter. -/
abbrev Time := Int

def MOUSE_SAMPLE_INTERVAL_MS : Time := 15

def FLUSH_INTERVAL_MS : Time := 5000

def IDLE_THRESHOLD_MS : Time := 3000

def SCROLL_THROTTLE_MS : Time := 50

/-- content.js LOGGABLE_KEYS: the closed allow-list of non-content keys. -/
def LOGGABLE_KEYS : List String :=
  ["Backspace", "Delete", "Tab", "Enter", "Escape",
   "ArrowUp", "ArrowDown", "ArrowLeft", "ArrowRight",
   "Home", "End", "PageUp", "PageDown",
   "Insert", "CapsLock", "NumLock", "ScrollLock",
   "ContextMenu", "PrintScreen", "Pause",
   "F1", "F2", "F3", "F4", "F5", "F6",
   "F7", "F8", "F9", "F10", "F11", "F12"]

/-- JS `a || b` on strings: empty string is falsy. -/
def jsOr (a b : String) : String := if a = "" then b else a

/-- JS `a || null` on a string field. -/
def jsOrNull (a : String) : Option String := if a = "" then none else some a

/-- A DOM element as seen by the handlers (missing string attributes are
    the empty string, matching their falsiness in the JS). -/
structure DomTarget where
  tagName : String
  id : String
  className : String
  name : String
  type : String
  innerText : String
  isContentEditable : Bool
  deriving DecidableEq

structure TargetInfo where
  tag : String
  id : Option String
  classes : Option String
  name : Option String
  type : Option String
  text : String
  deriving DecidableEq

def targetInfoOf (t : DomTarget) : TargetInfo :=
  { tag := t.tagName
    id := jsOrNull t.id
    classes := jsOrNull t.className
    name := jsOrNull t.name
    type := jsOrNull t.type
    text := t.innerText.take 64 }

structure ClickEvt where
  x : Int
  y : Int
  button : Nat
  target : Option DomTarget
  deriving DecidableEq

structure KeyEvt where
  key : String
  target : Option DomTarget
  deriving DecidableEq

/-- content.js buttonMap lookup with the `|| 'unknown'` fallback. -/
def buttonName (b : Nat) : String :=
  if b = 0 then "left" else if b = 1 then "middle"
  else if b = 2 then "right" else "unknown"

/-- content.js _getFieldId. -/
def getFieldId : Option DomTarget → String
  | none => "body"
  | some t =>
    if t.tagName = "INPUT" ∨ t.tagName = "TEXTAREA" ∨ t.tagName = "SELECT" then
      jsOr t.name (jsOr t.id (jsOr t.type t.tagName.toLower))
    else if t.isContentEditable then jsOr t.id "contenteditable"
    else jsOr t.id (jsOr t.tagName.toLower "body")

structure MousePos where
  x : Int
  y : Int
  pageX : Int
  pageY : Int
  deriving DecidableEq

structure MouseSample where
  x : Int
  y : Int
  pageX : Int
  pageY : Int
  t : Time
  deriving DecidableEq

structure ClickRecord where
  t : Time
  x : Int
  y : Int
  button : String
  target : Option TargetInfo
  dt_since_last : Option Time
  deriving DecidableEq

/-- Key record; keyup records carry no dt_since_last field in the JS,
    embedded here as `none`. -/
structure KeyRecord where
  field : String
  type : String
  t : Time
  dt_since_last : Option Time
  key : Option String
  deriving DecidableEq

structure ScrollRecord where
  t : Time
  scrollX : Int
  scrollY : Int
  dx : Int
  dy : Int
  dt_since_last : Option Time
  deriving DecidableEq

/-- A telemetry message as built by flushBuffers (tabId is filled in by the
    background side and omitted here). -/
structure Payload where
  sessionId : String
  segmentId : Nat
  url : String
  hostname : String
  timestamp : Time
  isSegmentEnd : Bool
  mouse : List MouseSample
  clicks : List ClickRecord
  keystrokes : List KeyRecord
  scroll : List ScrollRecord
  deriving DecidableEq

/-- The content script's mutable state.  Timer handles become Booleans
    (interval active or not); attached event listeners become one flag. -/
structure ContentState where
  recording : Bool
  sessionId : Option String
  segmentId : Nat
  segmentStartTime : Option Time
  mouseBuffer : List MouseSample
  clickBuffer : List ClickRecord
  keystrokeBuffer : List KeyRecord
  scrollBuffer : List ScrollRecord
  lastMouseEvent : Option MousePos
  lastInteractionTime : Time
  lastClickTimestamp : Option Time
  lastKeyTimestampByField : List (String × Time)
  lastScrollTimestamp : Option Time
  lastScrollX : Int
  lastScrollY : Int
  mouseIntervalOn : Bool
  flushIntervalOn : Bool
  idleCheckOn : Bool
  isIdle : Bool
  pageVisible : Bool
  lastFlushTime : Time
  listenersAttached : Bool
  url : String
  hostname : String
  deriving DecidableEq

/-- State at script load: recording off, empty buffers, no timers. -/
def initialState (url hostname : String) : ContentState :=
  { recording := false
    sessionId := none
    segmentId := 0
    segmentStartTime := none
    mouseBuffer := []
    clickBuffer := []
    keystrokeBuffer := []
    scrollBuffer := []
    lastMouseEvent := none
    lastInteractionTime := 0
    lastClickTimestamp := none
    lastKeyTimestampByField := []
    lastScrollTimestamp := none
    lastScrollX := 0
    lastScrollY := 0
    mouseIntervalOn := false
    flushIntervalOn := false
    idleCheckOn := false
    isIdle := false
    pageVisible := true
    lastFlushTime := 0
    listenersAttached := false
    url := url
    hostname := hostname }

/-- content.js lastKeyTimestampByField[fieldId] lookup. -/
def lookupField (m : List (String × Time)) (f : String) : Option Time :=
  (m.find? (fun p => p.1 = f)).map (fun p => p.2)

/-- content.js startNewSegment. -/
def startNewSegment (now : Time) (s : ContentState) : ContentState :=
  { s with
    segmentId := s.segmentId + 1
    segmentStartTime := some now
    mouseBuffer := []
    clickBuffer := []
    keystrokeBuffer := []
    scrollBuffer := []
    lastClickTimestamp := none
    lastKeyTimestampByField := []
    lastScrollTimestamp := none
    mouseIntervalOn := true }

/-- content.js touchInteraction. -/
def touchInteraction (now : Time) (s : ContentState) : ContentState :=
  let s1 := { s with lastInteractionTime := now }
  if s1.isIdle then startNewSegment now { s1 with isIdle := false } else s1

/-- content.js flushBuffers: drains all four buffers into one payload,
    unless recording is off, the session is unset, or everything is empty
    and the flush is not terminal. -/
def flushBuffers (isSegmentEnd : Bool) (now : Time) (s : ContentState) :
    ContentState × Option Payload :=
  match s.sessionId with
  | none => (s, none)
  | some sid =>
    if !s.recording then (s, none)
    else if s.mouseBuffer.isEmpty ∧ s.clickBuffer.isEmpty ∧
            s.keystrokeBuffer.isEmpty ∧ s.scrollBuffer.isEmpty ∧
            !isSegmentEnd then (s, none)
    else
      ({ s with mouseBuffer := [], clickBuffer := [],
                keystrokeBuffer := [], scrollBuffer := [] },
       some { sessionId := sid
              segmentId := s.segmentId
              url := s.url
              hostname := s.hostname
              timestamp := now
              isSegmentEnd := isSegmentEnd
              mouse := s.mouseBuffer
              clicks := s.clickBuffer
              keystrokes := s.keystrokeBuffer
              scroll := s.scrollBuffer })

/-- content.js endCurrentSegment. -/
def endCurrentSegment (now : Time) (s : ContentState) :
    ContentState × Option Payload :=
  let r := flushBuffers true now s
  ({ r.1 with mouseIntervalOn := false }, r.2)

/-- content.js handleMouseMove (runs only while its listener is attached). -/
def handleMouseMove (pos : MousePos) (now : Time) (s : ContentState) : ContentState :=
  if !s.listenersAttached then s
  else touchInteraction now { s with lastMouseEvent := some pos }

/-- content.js sampleMousePosition (runs only while its interval timer is on). -/
def sampleMousePosition (now : Time) (s : ContentState) : ContentState :=
  if !s.mouseIntervalOn then s
  else match s.lastMouseEvent with
    | none => s
    | some pos =>
      if s.isIdle ∨ !s.recording then s
      else { s with mouseBuffer := s.mouseBuffer ++
              [{ x := pos.x, y := pos.y, pageX := pos.pageX, pageY := pos.pageY, t := now }] }

/-- content.js handleClick. -/
def handleClick (ev : ClickEvt) (now : Time) (s : ContentState) : ContentState :=
  if !s.listenersAttached then s
  else if !s.recording then s
  else
    let s1 := touchInteraction now s
    if s1.isIdle then s1
    else
      let dt := s1.lastClickTimestamp.map (fun last => now - last)
      let s2 := { s1 with lastClickTimestamp := some now }
      { s2 with clickBuffer := s2.clickBuffer ++
          [{ t := now, x := ev.x, y := ev.y, button := buttonName ev.button,
             target := ev.target.map targetInfoOf, dt_since_last := dt }] }

/-- content.js handleKeyDown. -/
def handleKeyDown (ev : KeyEvt) (now : Time) (s : ContentState) : ContentState :=
  if !s.listenersAttached then s
  else if !s.recording then s
  else
    let s1 := touchInteraction now s
    if s1.isIdle then s1
    else
      let f := getFieldId ev.target
      let dt := (lookupField s1.lastKeyTimestampByField f).map (fun last => now - last)
      let s2 := { s1 with lastKeyTimestampByField := (f, now) :: s1.lastKeyTimestampByField }
      let k := if LOGGABLE_KEYS.contains ev.key then some ev.key else none
      { s2 with keystrokeBuffer := s2.keystrokeBuffer ++
          [{ field := f, type := "down", t := now, dt_since_last := dt, key := k }] }

/-- content.js handleKeyUp. -/
def handleKeyUp (ev : KeyEvt) (now : Time) (s : ContentState) : ContentState :=
  if !s.listenersAttached then s
  else if !s.recording then s
  else
    let s1 := touchInteraction now s
    if s1.isIdle then s1
    else
      let f := getFieldId ev.target
      let k := if LOGGABLE_KEYS.contains ev.key then some ev.key else none
      { s1 with keystrokeBuffer := s1.keystrokeBuffer ++
          [{ field := f, type := "up", t := now, dt_since_last := none, key := k }] }

/-- content.js handleScroll (sx, sy are window.scrollX/scrollY at the event;
    the `lastScrollTimestamp &&` truthiness check makes a stored time of 0 skip
    the throttle, as in the JS). -/
def handleScroll (sx sy : Int) (now : Time) (s : ContentState) : ContentState :=
  if !s.listenersAttached then s
  else if !s.recording then s
  else
    let s1 := touchInteraction now s
    if s1.isIdle then s1
    else
      let throttled : Bool := match s1.lastScrollTimestamp with
        | some last => decide (last ≠ 0 ∧ now - last < SCROLL_THROTTLE_MS)
        | none => false
      if throttled then s1
      else
        let dt := s1.lastScrollTimestamp.map (fun last => now - last)
        { s1 with
            lastScrollX := sx
            lastScrollY := sy
            lastScrollTimestamp := some now
            scrollBuffer := s1.scrollBuffer ++
              [{ t := now, scrollX := sx, scrollY := sy,
                 dx := sx - s1.lastScrollX, dy := sy - s1.lastScrollY,
                 dt_since_last := dt }] }

/-- content.js handleVisibilityChange. -/
def handleVisibilityChange (hidden : Bool) (now : Time) (s : ContentState) :
    ContentState × Option Payload :=
  if !s.listenersAttached then (s, none)
  else if hidden then
    let s1 := { s with pageVisible := false }
    if s1.recording ∧ !s1.isIdle then endCurrentSegment now { s1 with isIdle := true }
    else (s1, none)
  else ({ s with pageVisible := true }, none)

/-- content.js checkIdle (runs only while its interval timer is on). -/
def checkIdle (now : Time) (s : ContentState) : ContentState × Option Payload :=
  if !s.idleCheckOn then (s, none)
  else if !s.recording ∨ s.isIdle then (s, none)
  else if now - s.lastInteractionTime ≥ IDLE_THRESHOLD_MS then
    endCurrentSegment now { s with isIdle := true }
  else (s, none)

/-- content.js periodicFlush (runs only while its interval timer is on). -/
def periodicFlush (now : Time) (s : ContentState) : ContentState × Option Payload :=
  if !s.flushIntervalOn then (s, none)
  else if now - s.lastFlushTime ≥ FLUSH_INTERVAL_MS then
    flushBuffers false now { s with lastFlushTime := now }
  else (s, none)

/-- content.js startRecording (the one-shot page_meta message is not part of
    the telemetry output stream and is not modelled here). -/
def startRecordingC (sid : String) (now : Time) (s : ContentState) : ContentState :=
  if s.recording then s
  else
    let s1 := startNewSegment now
      { s with sessionId := some sid, recording := true, isIdle := false, segmentId := 0 }
    { s1 with listenersAttached := true, mouseIntervalOn := true,
              flushIntervalOn := true, idleCheckOn := true }

/-- content.js stopRecording: clears the recording flag, calls
    flushBuffers(true), then detaches listeners and cancels timers. -/
def stopRecordingC (now : Time) (s : ContentState) : ContentState × Option Payload :=
  if !s.recording then (s, none)
  else
    let r := flushBuffers true now { s with recording := false }
    ({ r.1 with listenersAttached := false, mouseIntervalOn := false,
                flushIntervalOn := false, idleCheckOn := false }, r.2)

/-- The event alphabet of one page context: captured DOM events, the three
    interval timers firing, and the stop command from the coordinator. -/
inductive Ev where
  | mouseMove (pos : MousePos)
  | mouseTick
  | click (ev : ClickEvt)
  | keyDown (ev : KeyEvt)
  | keyUp (ev : KeyEvt)
  | scroll (sx sy : Int)
  | visibility (hidden : Bool)
  | idleTick
  | flushTick
  | stopCmd
  deriving DecidableEq

/-- One cooperative step of the page context at time `t`. -/
def step (s : ContentState) (t : Time) : Ev → ContentState × Option Payload
  | .mouseMove pos => (handleMouseMove pos t s, none)
  | .mouseTick => (sampleMousePosition t s, none)
  | .click ev => (handleClick ev t s, none)
  | .keyDown ev => (handleKeyDown ev t s, none)
  | .keyUp ev => (handleKeyUp ev t s, none)
  | .scroll sx sy => (handleScroll sx sy t s, none)
  | .visibility hidden => handleVisibilityChange hidden t s
  | .idleTick => checkIdle t s
  | .flushTick => periodicFlush t s
  | .stopCmd => stopRecordingC t s

/-- Run a timed event trace, collecting the emitted telemetry payloads. -/
def runEvents (s : ContentState) : List (Time × Ev) → ContentState × List Payload
  | [] => (s, [])
  | (t, e) :: rest =>
    let r := step s t e
    let r2 := runEvents r.1 rest
    (r2.1, r.2.toList ++ r2.2)

/-- A run of one page between a start-recording command at time `t0`
    (page loaded at url u, host h) and whatever the trace holds. -/
def runFromStart (u h sid : String) (t0 : Time) (evs : List (Time × Ev)) :
    ContentState × List Payload :=
  runEvents (startRecordingC sid t0 (initialState u h)) evs

/-! ## Background service worker (chrome-extension/background.js) -/

structure Counters where
  mouse : Nat
  clicks : Nat
  keystrokes : Nat
  scroll : Nat
  deriving DecidableEq

def Counters.zero : Counters := ⟨0, 0, 0, 0⟩

/-- A telemetry message as received by the coordinator (tabId filled in from
    the sender).  The carried sessionId is part of the message contract;
    storeTelemetry never reads it. -/
structure FragmentMsg where
  sessionId : String
  segmentId : Nat
  tabId : Option Int
  url : String
  hostname : String
  timestamp : Time
  isSegmentEnd : Bool
  mouse : List MouseSample
  clicks : List ClickRecord
  keystrokes : List KeyRecord
  scroll : List ScrollRecord
  deriving DecidableEq

/-- The `segment` object storeTelemetry pushes into session.segments. -/
structure StoredFragment where
  segmentId : Nat
  tabId : Option Int
  url : String
  hostname : String
  timestamp : Time
  isSegmentEnd : Bool
  mouse : List MouseSample
  clicks : List ClickRecord
  keystrokes : List KeyRecord
  scroll : List ScrollRecord
  deriving DecidableEq

def fragOfMsg (m : FragmentMsg) : StoredFragment :=
  { segmentId := m.segmentId, tabId := m.tabId, url := m.url,
    hostname := m.hostname, timestamp := m.timestamp,
    isSegmentEnd := m.isSegmentEnd, mouse := m.mouse, clicks := m.clicks,
    keystrokes := m.keystrokes, scroll := m.scroll }

/-- storeTelemetry's hasData check. -/
def fragHasData (f : StoredFragment) : Bool :=
  !f.mouse.isEmpty || !f.clicks.isEmpty || !f.keystrokes.isEmpty || !f.scroll.isEmpty

/-- A page_meta message (client hints and network blobs are opaque here). -/
structure PageMetaMsg where
  sessionId : String
  url : String
  hostname : String
  clientHints : Option String
  network : Option String
  timestamp : Time
  deriving DecidableEq

structure PageMetaRecord where
  url : String
  hostname : String
  clientHints : Option String
  network : Option String
  timestamp : Time
  deriving DecidableEq

def metaOfMsg (m : PageMetaMsg) : PageMetaRecord :=
  { url := m.url, hostname := m.hostname, clientHints := m.clientHints,
    network := m.network, timestamp := m.timestamp }

structure BgSession where
  startTime : Time
  segments : List StoredFragment
  pageMeta : List PageMetaRecord
  deriving DecidableEq

/-- The durable `sessions` object: an association list keyed by session id. -/
abbrev Store := List (String × BgSession)

def Store.get? (st : Store) (sid : String) : Option BgSession :=
  (st.find? (fun p => p.1 = sid)).map (fun p => p.2)

/-- JS `sessions[sid] = sess` (update in place, or add a new key). -/
def Store.put (st : Store) (sid : String) (sess : BgSession) : Store :=
  if (st.find? (fun p => p.1 = sid)).isSome then
    st.map (fun p => if p.1 = sid then (sid, sess) else p)
  else st ++ [(sid, sess)]

/-- One queued read-modify-write closure against the durable store. -/
inductive WriteOp where
  | putFragment (frag : StoredFragment)
  | putPageMeta (meta : PageMetaRecord)
  | initSession (sid : String) (t : Time)
  deriving DecidableEq

/-- The coordinator's state: in-memory mirror plus durable store; `pending`
    is the write queue (operations not yet run). -/
structure BgState where
  sessionId : Option String
  recording : Bool
  totalEvents : Counters
  segmentCount : Nat
  store : Store
  pending : List WriteOp
  deriving DecidableEq

/-- Run one queued closure to completion.  The fragment/metadata closures
    re-read the sessions object and the global sessionId at run time; a
    missing session makes the closure return with the store untouched. -/
def applyWriteOp (s : BgState) : WriteOp → BgState
  | .putFragment frag =>
    match s.sessionId with
    | none => s
    | some sid =>
      match s.store.get? sid with
      | none => s
      | some sess =>
        let sess2 := { sess with segments := sess.segments ++ [frag] }
        { s with store := s.store.put sid sess2
                 segmentCount := sess2.segments.length }
  | .putPageMeta m =>
    match s.sessionId with
    | none => s
    | some sid =>
      match s.store.get? sid with
      | none => s
      | some sess =>
        { s with store := s.store.put sid { sess with pageMeta := sess.pageMeta ++ [m] } }
  | .initSession sid t =>
    { s with store := s.store.put sid { startTime := t, segments := [], pageMeta := [] } }

/-- The write queue: each queued operation runs to completion (its write
    included) before the next one starts. -/
def drainQueue (s : BgState) : BgState :=
  s.pending.foldl applyWriteOp { s with pending := [] }

/-- background.js storeTelemetry: guard, count events in memory, build the
    segment, drop it if empty, otherwise enqueue the durable append. -/
def storeTelemetry (data : FragmentMsg) (s : BgState) : BgState :=
  if !s.recording ∨ s.sessionId.isNone then s
  else
    let s1 := { s with totalEvents :=
      { mouse := s.totalEvents.mouse + data.mouse.length
        clicks := s.totalEvents.clicks + data.clicks.length
        keystrokes := s.totalEvents.keystrokes + data.keystrokes.length
        scroll := s.totalEvents.scroll + data.scroll.length } }
    let seg := fragOfMsg data
    if !fragHasData seg then s1
    else { s1 with pending := s1.pending ++ [WriteOp.putFragment seg] }

/-- background.js storePageMeta. -/
def storePageMeta (data : PageMetaMsg) (s : BgState) : BgState :=
  if !s.recording ∨ s.sessionId.isNone then s
  else { s with pending := s.pending ++ [WriteOp.putPageMeta (metaOfMsg data)] }

/-- background.js clearData: removes the sessions key and zeroes counters. -/
def clearData (s : BgState) : BgState :=
  { s with store := [], totalEvents := Counters.zero, segmentCount := 0 }

structure StatusReply where
  recording : Bool
  sessionId : Option String
  totalEvents : Counters
  segmentCount : Nat
  deriving DecidableEq

/-- The popup_get_status reply. -/
def getStatus (s : BgState) : StatusReply :=
  { recording := s.recording, sessionId := s.sessionId,
    totalEvents := s.totalEvents, segmentCount := s.segmentCount }

/-! ## Export consolidation (background.js exportData) -/

structure ConsolidatedSeg where
  segmentId : Nat
  tabId : Option Int
  url : String
  hostname : String
  startTime : Time
  endTime : Time
  mouse : List MouseSample
  clicks : List ClickRecord
  keystrokes : List KeyRecord
  scroll : List ScrollRecord
  deriving DecidableEq

/-- The `currentSeg` object exportData creates from a fragment that opens a
    new logical segment. -/
def startSeg (f : StoredFragment) : ConsolidatedSeg :=
  { segmentId := f.segmentId, tabId := f.tabId, url := f.url,
    hostname := f.hostname, startTime := f.timestamp, endTime := f.timestamp,
    mouse := f.mouse, clicks := f.clicks, keystrokes := f.keystrokes,
    scroll := f.scroll }

/-- exportData's merge branch: append each buffer, advance endTime. -/
def mergeInto (cur : ConsolidatedSeg) (f : StoredFragment) : ConsolidatedSeg :=
  { cur with mouse := cur.mouse ++ f.mouse, clicks := cur.clicks ++ f.clicks,
             keystrokes := cur.keystrokes ++ f.keystrokes,
             scroll := cur.scroll ++ f.scroll, endTime := f.timestamp }

/-- The exportData loop with a current open segment. -/
def consolidateAux (cur : ConsolidatedSeg) : List StoredFragment → List ConsolidatedSeg
  | [] => [cur]
  | f :: rest =>
    if cur.segmentId = f.segmentId then consolidateAux (mergeInto cur f) rest
    else cur :: consolidateAux (startSeg f) rest

/-- exportData's consolidation of one session's fragment list. -/
def consolidate : List StoredFragment → List ConsolidatedSeg
  | [] => []
  | f :: rest => consolidateAux (startSeg f) rest

structure ConsolidatedSession where
  sessionId : String
  startTime : Time
  pageMeta : List PageMetaRecord
  totalSegments : Nat
  segments : List ConsolidatedSeg
  deriving DecidableEq

def consolidateSession (sid : String) (sess : BgSession) : ConsolidatedSession :=
  let ms := consolidate sess.segments
  { sessionId := sid, startTime := sess.startTime, pageMeta := sess.pageMeta,
    totalSegments := ms.length, segments := ms }

/-- Outcome of exportData as seen by the caller: the empty-store check and
    the consolidated document (the download hand-off is environment). -/
inductive ExportResult where
  | failure (reason : String)
  | success (doc : List ConsolidatedSession)
  deriving DecidableEq

/-- background.js exportData up to the download hand-off. -/
def exportData (st : Store) : ExportResult :=
  if st.isEmpty then .failure "No data to export"
  else .success (st.map (fun p => consolidateSession p.1 p.2))

/-- Modelled from the spec (4.6 Exporter / Consolidation): the logical
    segment a maximal run g :: gs of same-id fragments must merge into —
    per-kind buffers concatenated in order, start time the first fragment's
    timestamp, end time the last fragment's. -/
def specMergedSeg (g : StoredFragment) (gs : List StoredFragment) : ConsolidatedSeg :=
  { segmentId := g.segmentId, tabId := g.tabId, url := g.url,
    hostname := g.hostname, startTime := g.timestamp,
    endTime := (gs.map (fun f => f.timestamp)).getLastD g.timestamp,
    mouse := g.mouse ++ (gs.map (fun f => f.mouse)).flatten,
    clicks := g.clicks ++ (gs.map (fun f => f.clicks)).flatten,
    keystrokes := g.keystrokes ++ (gs.map (fun f => f.keystrokes)).flatten,
    scroll := g.scroll ++ (gs.map (fun f => f.scroll)).flatten }

/-! ## Theorems -/

/-- C3: for every flush invocation that produces a payload, the drain of
    each of the four event buffers is atomic — the payload's records and the
    records remaining in the buffer are disjoint, their union (concatenation)
    is the buffer's pre-flush contents, and the buffer is left empty in the
    same step that produces the payload. -/
theorem c3_flush_drain_atomic (b : Bool) (now : Time) (s s' : ContentState)
    (p : Payload) (h : flushBuffers b now s = (s', some p)) :
    (p.mouse ++ s'.mouseBuffer = s.mouseBuffer ∧ s'.mouseBuffer = [] ∧
      ∀ r, r ∈ p.mouse → r ∉ s'.mouseBuffer) ∧
    (p.clicks ++ s'.clickBuffer = s.clickBuffer ∧ s'.clickBuffer = [] ∧
      ∀ r, r ∈ p.clicks → r ∉ s'.clickBuffer) ∧
    (p.keystrokes ++ s'.keystrokeBuffer = s.keystrokeBuffer ∧ s'.keystrokeBuffer = [] ∧
      ∀ r, r ∈ p.keystrokes → r ∉ s'.keystrokeBuffer) ∧
    (p.scroll ++ s'.scrollBuffer = s.scrollBuffer ∧ s'.scrollBuffer = [] ∧
      ∀ r, r ∈ p.scroll → r ∉ s'.scrollBuffer) := by
  unfold flushBuffers at h
  split at h
  · simp at h
  · split at h
    · simp at h
    · split at h
      · simp at h
      · simp only [Prod.mk.injEq, Option.some.injEq] at h
        obtain ⟨h1, h2⟩ := h
        subst h1
        subst h2
        simp

/-- A concrete pre-flush state with one buffered click. -/
def c3s : ContentState :=
  { initialState "u" "h" with
    recording := true
    sessionId := some "sess"
    clickBuffer := [{ t := 100, x := 1, y := 2, button := "left",
                      target := none, dt_since_last := none }] }

/-- The state flushBuffers leaves behind on `c3s`. -/
def c3sAfter : ContentState := { c3s with clickBuffer := [] }

/-- The payload flushBuffers emits on `c3s`. -/
def c3payload : Payload :=
  { sessionId := "sess", segmentId := 0, url := "u", hostname := "h",
    timestamp := 200, isSegmentEnd := true, mouse := [],
    clicks := [{ t := 100, x := 1, y := 2, button := "left",
                 target := none, dt_since_last := none }],
    keystrokes := [], scroll := [] }

/-- C3 witness: a concrete flush invocation producing a payload. -/
theorem c3_flush_drain_atomic_witness :
    c3payload.clicks ++ c3sAfter.clickBuffer = c3s.clickBuffer ∧
    c3sAfter.clickBuffer = [] ∧ c3sAfter.mouseBuffer = [] ∧
    c3sAfter.keystrokeBuffer = [] ∧ c3sAfter.scrollBuffer = [] := by
  have h := c3_flush_drain_atomic true 200 c3s c3sAfter c3payload (by decide)
  exact ⟨h.2.1.1, h.2.1.2.1, h.1.2.1, h.2.2.1.2.1, h.2.2.2.2.1⟩

/-- C7: after clearData, a status query shows zero for every per-kind
    counter and a zero segment count, and a subsequent export returns the
    structured "No data to export" failure. -/
theorem c7_clear_then_status_and_export (s : BgState) :
    (getStatus (clearData s)).totalEvents = Counters.zero ∧
    (getStatus (clearData s)).segmentCount = 0 ∧
    exportData (clearData s).store = ExportResult.failure "No data to export" :=
  ⟨rfl, rfl, rfl⟩

/-- C1 (refuting the claim as the spec intends it): stopRecording clears the
    recording flag before calling flushBuffers(true), and flushBuffers
    returns immediately when recording is off — so the terminal flush on
    stop never emits a payload, and buffered records are discarded.  The
    first conjunct shows no stop command ever emits; the rest evaluate a
    concrete run (start at t=0, one click at t=100, stop at t=200) in which
    a record is buffered and the whole run emits nothing. -/
theorem c1_stop_terminal_flush_is_silenced :
    (∀ (t : Time) (s : ContentState), (stopRecordingC t s).2 = none) ∧
    (runFromStart "u" "h" "sess" 0
        [(100, .click ⟨10, 20, 0, none⟩)]).1.clickBuffer ≠ [] ∧
    (runFromStart "u" "h" "sess" 0
        [(100, .click ⟨10, 20, 0, none⟩), (200, .stopCmd)]).2 = [] := by
  refine ⟨?_, by decide, by decide⟩
  intro t s
  unfold stopRecordingC
  split
  · rfl
  · unfold flushBuffers
    cases hs : s.sessionId <;> simp

/-- C9: the stored click record's dt_since_last is null for the first click
    of a segment and the elapsed time since the previous click otherwise;
    in the concrete scenario (clicks at t=100 and t=350 after start) the two
    stored records carry none and some 250. -/
theorem c9_click_dt_since_last :
    (∀ (ev : ClickEvt) (now : Time) (s : ContentState),
        s.listenersAttached = true → s.recording = true → s.isIdle = false →
        s.lastClickTimestamp = none →
        (handleClick ev now s).clickBuffer = s.clickBuffer ++
          [{ t := now, x := ev.x, y := ev.y, button := buttonName ev.button,
             target := ev.target.map targetInfoOf, dt_since_last := none }]) ∧
    (∀ (ev : ClickEvt) (now t0 : Time) (s : ContentState),
        s.listenersAttached = true → s.recording = true → s.isIdle = false →
        s.lastClickTimestamp = some t0 →
        (handleClick ev now s).clickBuffer = s.clickBuffer ++
          [{ t := now, x := ev.x, y := ev.y, button := buttonName ev.button,
             target := ev.target.map targetInfoOf,
             dt_since_last := some (now - t0) }]) ∧
    (runFromStart "u" "h" "sess" 0
        [(100, .click ⟨10, 20, 0, none⟩), (350, .click ⟨30, 40, 0, none⟩)]).1.clickBuffer.map
        (fun r => r.dt_since_last) = [none, some 250] := by
  refine ⟨?_, ?_, by decide⟩
  · intro ev now s h1 h2 h3 h4
    simp [handleClick, touchInteraction, h1, h2, h3, h4]
  · intro ev now t0 s h1 h2 h3 h4
    simp [handleClick, touchInteraction, h1, h2, h3, h4]

/-- C9 witness: the general clauses applied to a concrete recording state. -/
theorem c9_click_dt_since_last_witness :
    (handleClick ⟨10, 20, 0, none⟩ 100
        { initialState "u" "h" with
          recording := true
          sessionId := some "sess"
          listenersAttached := true }).clickBuffer =
      [{ t := 100, x := 10, y := 20, button := buttonName 0,
         target := none, dt_since_last := none }] ∧
    (handleClick ⟨30, 40, 0, none⟩ 350
        { initialState "u" "h" with
          recording := true
          sessionId := some "sess"
          listenersAttached := true
          lastClickTimestamp := some 100 }).clickBuffer =
      [{ t := 350, x := 30, y := 40, button := buttonName 0,
         target := none, dt_since_last := some 250 }] := by
  constructor
  · have h := c9_click_dt_since_last.1 ⟨10, 20, 0, none⟩ 100
      { initialState "u" "h" with
        recording := true
        sessionId := some "sess"
        listenersAttached := true } rfl rfl rfl rfl
    simpa using h
  · have h := c9_click_dt_since_last.2.1 ⟨30, 40, 0, none⟩ 350 100
      { initialState "u" "h" with
        recording := true
        sessionId := some "sess"
        listenersAttached := true
        lastClickTimestamp := some 100 } rfl rfl rfl rfl
    simpa using h

/-- C10: a received telemetry fragment whose four buffers are all empty is
    discarded before any durable write is enqueued (even when terminal —
    storeTelemetry returns the state unchanged), and any write the
    coordinator does enqueue appends a fragment with at least one event
    record. -/
theorem c10_empty_fragment_never_stored :
    (∀ (s : BgState) (data : FragmentMsg),
        data.mouse = [] → data.clicks = [] → data.keystrokes = [] →
        data.scroll = [] → storeTelemetry data s = s) ∧
    (∀ (s : BgState) (data : FragmentMsg),
        (storeTelemetry data s).pending = s.pending ∨
        ((storeTelemetry data s).pending =
            s.pending ++ [WriteOp.putFragment (fragOfMsg data)] ∧
          fragHasData (fragOfMsg data) = true)) := by
  constructor
  · intro s data h1 h2 h3 h4
    simp only [storeTelemetry]
    split
    · rfl
    · simp [fragOfMsg, fragHasData, h1, h2, h3, h4]
  · intro s data
    simp only [storeTelemetry]
    split
    · exact Or.inl rfl
    · split
      · exact Or.inl rfl
      · next hne =>
        exact Or.inr ⟨rfl, by simpa using hne⟩

/-- C10 witness: an empty terminal fragment leaves the coordinator state —
    and hence the durable store — unchanged. -/
theorem c10_empty_fragment_never_stored_witness :
    storeTelemetry
        { sessionId := "sess", segmentId := 3, tabId := none, url := "u",
          hostname := "h", timestamp := 500, isSegmentEnd := true,
          mouse := [], clicks := [], keystrokes := [], scroll := [] }
        { sessionId := some "sess", recording := true,
          totalEvents := Counters.zero, segmentCount := 0,
          store := [("sess", { startTime := 0, segments := [], pageMeta := [] })],
          pending := [] } =
      { sessionId := some "sess", recording := true,
        totalEvents := Counters.zero, segmentCount := 0,
        store := [("sess", { startTime := 0, segments := [], pageMeta := [] })],
        pending := [] } :=
  c10_empty_fragment_never_stored.1 _ _ rfl rfl rfl rfl

/-! ### C5: key redaction invariant -/

/-- A key record is redacted: its key field is absent or allow-listed. -/
def keyOK (r : KeyRecord) : Bool :=
  match r.key with
  | none => true
  | some k => LOGGABLE_KEYS.contains k

def stateKeysOK (s : ContentState) : Bool := s.keystrokeBuffer.all keyOK

def payloadKeysOK (p : Payload) : Bool := p.keystrokes.all keyOK

/-- DOM KeyboardEvent.key values for modifier keys. -/
def modifierKeyNames : List String :=
  ["Shift", "Control", "Alt", "Meta", "AltGraph", "Hyper",
   "Super", "Fn", "FnLock", "Symbol", "SymbolLock"]

theorem keysOK_startNewSegment (t : Time) (s : ContentState) :
    stateKeysOK (startNewSegment t s) = true := rfl

theorem keysOK_touchInteraction (t : Time) (s : ContentState)
    (h : stateKeysOK s = true) : stateKeysOK (touchInteraction t s) = true := by
  simp only [touchInteraction]
  split
  · exact keysOK_startNewSegment _ _
  · exact h

theorem keysOK_flushBuffers (b : Bool) (t : Time) (s : ContentState)
    (h : stateKeysOK s = true) :
    stateKeysOK (flushBuffers b t s).1 = true ∧
    ((flushBuffers b t s).2.all payloadKeysOK) = true := by
  unfold flushBuffers
  split
  · exact ⟨h, rfl⟩
  · split
    · exact ⟨h, rfl⟩
    · split
      · exact ⟨h, rfl⟩
      · exact ⟨rfl, by simpa [payloadKeysOK, Option.all, stateKeysOK] using h⟩

theorem keysOK_endCurrentSegment (t : Time) (s : ContentState)
    (h : stateKeysOK s = true) :
    stateKeysOK (endCurrentSegment t s).1 = true ∧
    ((endCurrentSegment t s).2.all payloadKeysOK) = true := by
  have hf := keysOK_flushBuffers true t s h
  exact ⟨hf.1, hf.2⟩

theorem keysOK_handleKeyDown (ev : KeyEvt) (t : Time) (s : ContentState)
    (h : stateKeysOK s = true) : stateKeysOK (handleKeyDown ev t s) = true := by
  simp only [handleKeyDown]
  split
  · exact h
  · split
    · exact h
    · have h1 := keysOK_touchInteraction t s h
      split
      · exact h1
      · simp only [stateKeysOK, List.all_append, List.all_cons, List.all_nil,
          Bool.and_true, Bool.and_eq_true]
        refine ⟨h1, ?_⟩
        by_cases hc : ev.key ∈ LOGGABLE_KEYS <;> simp [keyOK, hc]

theorem keysOK_handleKeyUp (ev : KeyEvt) (t : Time) (s : ContentState)
    (h : stateKeysOK s = true) : stateKeysOK (handleKeyUp ev t s) = true := by
  simp only [handleKeyUp]
  split
  · exact h
  · split
    · exact h
    · have h1 := keysOK_touchInteraction t s h
      split
      · exact h1
      · simp only [stateKeysOK, List.all_append, List.all_cons, List.all_nil,
          Bool.and_true, Bool.and_eq_true]
        refine ⟨h1, ?_⟩
        by_cases hc : ev.key ∈ LOGGABLE_KEYS <;> simp [keyOK, hc]

theorem keysOK_handleMouseMove (pos : MousePos) (t : Time) (s : ContentState)
    (h : stateKeysOK s = true) : stateKeysOK (handleMouseMove pos t s) = true := by
  unfold handleMouseMove
  split
  · exact h
  · exact keysOK_touchInteraction t _ h

theorem keysOK_sampleMousePosition (t : Time) (s : ContentState)
    (h : stateKeysOK s = true) : stateKeysOK (sampleMousePosition t s) = true := by
  unfold sampleMousePosition
  split
  · exact h
  · split
    · exact h
    · split
      · exact h
      · exact h

theorem keysOK_handleClick (ev : ClickEvt) (t : Time) (s : ContentState)
    (h : stateKeysOK s = true) : stateKeysOK (handleClick ev t s) = true := by
  simp only [handleClick]
  split
  · exact h
  · split
    · exact h
    · have h1 := keysOK_touchInteraction t s h
      split
      · exact h1
      · exact h1

theorem keysOK_handleScroll (sx sy : Int) (t : Time) (s : ContentState)
    (h : stateKeysOK s = true) : stateKeysOK (handleScroll sx sy t s) = true := by
  simp only [handleScroll]
  split
  · exact h
  · split
    · exact h
    · have h1 := keysOK_touchInteraction t s h
      split
      · exact h1
      · split
        · exact h1
        · exact h1

theorem keysOK_handleVisibilityChange (hidden : Bool) (t : Time) (s : ContentState)
    (h : stateKeysOK s = true) :
    stateKeysOK (handleVisibilityChange hidden t s).1 = true ∧
    ((handleVisibilityChange hidden t s).2.all payloadKeysOK) = true := by
  simp only [handleVisibilityChange]
  split
  · exact ⟨h, rfl⟩
  · split
    · split
      · exact keysOK_endCurrentSegment t _ h
      · exact ⟨h, rfl⟩
    · exact ⟨h, rfl⟩

theorem keysOK_checkIdle (t : Time) (s : ContentState)
    (h : stateKeysOK s = true) :
    stateKeysOK (checkIdle t s).1 = true ∧
    ((checkIdle t s).2.all payloadKeysOK) = true := by
  unfold checkIdle
  split
  · exact ⟨h, rfl⟩
  · split
    · exact ⟨h, rfl⟩
    · split
      · exact keysOK_endCurrentSegment t _ h
      · exact ⟨h, rfl⟩

theorem keysOK_periodicFlush (t : Time) (s : ContentState)
    (h : stateKeysOK s = true) :
    stateKeysOK (periodicFlush t s).1 = true ∧
    ((periodicFlush t s).2.all payloadKeysOK) = true := by
  unfold periodicFlush
  split
  · exact ⟨h, rfl⟩
  · split
    · exact keysOK_flushBuffers false t _ h
    · exact ⟨h, rfl⟩

theorem keysOK_stopRecordingC (t : Time) (s : ContentState)
    (h : stateKeysOK s = true) :
    stateKeysOK (stopRecordingC t s).1 = true ∧
    ((stopRecordingC t s).2.all payloadKeysOK) = true := by
  unfold stopRecordingC
  split
  · exact ⟨h, rfl⟩
  · have hf := keysOK_flushBuffers true t { s with recording := false } h
    exact ⟨hf.1, hf.2⟩

theorem keysOK_step (s : ContentState) (t : Time) (e : Ev)
    (h : stateKeysOK s = true) :
    stateKeysOK (step s t e).1 = true ∧
    ((step s t e).2.all payloadKeysOK) = true := by
  cases e with
  | mouseMove pos => exact ⟨keysOK_handleMouseMove pos t s h, rfl⟩
  | mouseTick => exact ⟨keysOK_sampleMousePosition t s h, rfl⟩
  | click ev => exact ⟨keysOK_handleClick ev t s h, rfl⟩
  | keyDown ev => exact ⟨keysOK_handleKeyDown ev t s h, rfl⟩
  | keyUp ev => exact ⟨keysOK_handleKeyUp ev t s h, rfl⟩
  | scroll sx sy => exact ⟨keysOK_handleScroll sx sy t s h, rfl⟩
  | visibility hidden => exact keysOK_handleVisibilityChange hidden t s h
  | idleTick => exact keysOK_checkIdle t s h
  | flushTick => exact keysOK_periodicFlush t s h
  | stopCmd => exact keysOK_stopRecordingC t s h

theorem keysOK_runEvents (evs : List (Time × Ev)) : ∀ (s : ContentState),
    stateKeysOK s = true →
    stateKeysOK (runEvents s evs).1 = true ∧
    ((runEvents s evs).2.all payloadKeysOK) = true := by
  induction evs with
  | nil => exact fun s h => ⟨h, rfl⟩
  | cons te rest ih =>
    intro s h
    obtain ⟨t, e⟩ := te
    have hstep := keysOK_step s t e h
    have hrest := ih (step s t e).1 hstep.1
    refine ⟨hrest.1, ?_⟩
    show (((step s t e).2.toList ++ (runEvents (step s t e).1 rest).2).all payloadKeysOK) = true
    rw [List.all_append]
    refine Bool.and_eq_true_iff.mpr ⟨?_, hrest.2⟩
    cases hp : (step s t e).2 with
    | none => rfl
    | some p =>
      have := hstep.2
      rw [hp] at this
      simpa [Option.all] using this

/-- C5: every key record ever buffered or carried in a flush payload, for
    keydown and keyup alike, has a key field that is either absent or a
    member of the LOGGABLE_KEYS allow-list; and every allow-list member is
    at least two characters long (no literal character key) and is not a
    modifier key name. -/
theorem c5_key_redaction (u hn sid : String) (t0 : Time) (evs : List (Time × Ev)) :
    stateKeysOK (runFromStart u hn sid t0 evs).1 = true ∧
    ((runFromStart u hn sid t0 evs).2.all payloadKeysOK) = true ∧
    (LOGGABLE_KEYS.all
      (fun k => decide (2 ≤ k.length) && !(modifierKeyNames.contains k))) = true := by
  have h0 : stateKeysOK (startRecordingC sid t0 (initialState u hn)) = true := rfl
  have hrun := keysOK_runEvents evs _ h0
  exact ⟨hrun.1, hrun.2, by decide⟩

/-! ### C8: fragments for a session id absent from the store -/

theorem storeTelemetry_fields (mf : FragmentMsg) (s : BgState) :
    (storeTelemetry mf s).store = s.store ∧
    (storeTelemetry mf s).sessionId = s.sessionId ∧
    (storeTelemetry mf s).recording = s.recording ∧
    ((storeTelemetry mf s).pending = s.pending ∨
      (storeTelemetry mf s).pending =
        s.pending ++ [WriteOp.putFragment (fragOfMsg mf)]) := by
  simp only [storeTelemetry]
  split
  · exact ⟨rfl, rfl, rfl, Or.inl rfl⟩
  · split
    · exact ⟨rfl, rfl, rfl, Or.inl rfl⟩
    · exact ⟨rfl, rfl, rfl, Or.inr rfl⟩

theorem storePageMeta_fields (mm : PageMetaMsg) (s : BgState) :
    (storePageMeta mm s).store = s.store ∧
    (storePageMeta mm s).sessionId = s.sessionId ∧
    (storePageMeta mm s).recording = s.recording ∧
    ((storePageMeta mm s).pending = s.pending ∨
      (storePageMeta mm s).pending =
        s.pending ++ [WriteOp.putPageMeta (metaOfMsg mm)]) := by
  simp only [storePageMeta]
  split
  · exact ⟨rfl, rfl, rfl, Or.inl rfl⟩
  · exact ⟨rfl, rfl, rfl, Or.inr rfl⟩

theorem applyWriteOp_putFragment_missing (s : BgState) (sid : String)
    (frag : StoredFragment) (hsid : s.sessionId = some sid)
    (habs : s.store.get? sid = none) :
    applyWriteOp s (WriteOp.putFragment frag) = s := by
  simp [applyWriteOp, hsid, habs]

theorem applyWriteOp_putPageMeta_missing (s : BgState) (sid : String)
    (m : PageMetaRecord) (hsid : s.sessionId = some sid)
    (habs : s.store.get? sid = none) :
    applyWriteOp s (WriteOp.putPageMeta m) = s := by
  simp [applyWriteOp, hsid, habs]

theorem foldl_applyWriteOp_missing (sid : String) :
    ∀ (ops : List WriteOp) (s0 : BgState),
    s0.sessionId = some sid → s0.store.get? sid = none →
    (∀ op ∈ ops, (∃ f, op = WriteOp.putFragment f) ∨
      (∃ m, op = WriteOp.putPageMeta m)) →
    ops.foldl applyWriteOp s0 = s0 := by
  intro ops
  induction ops with
  | nil => intro s0 _ _ _; rfl
  | cons op rest ih =>
    intro s0 hsid habs hops
    have hop : applyWriteOp s0 op = s0 := by
      rcases hops op (List.mem_cons_self op rest) with ⟨f, rfl⟩ | ⟨m, rfl⟩
      · exact applyWriteOp_putFragment_missing s0 sid f hsid habs
      · exact applyWriteOp_putPageMeta_missing s0 sid m hsid habs
    rw [List.foldl_cons, hop]
    exact ih s0 hsid habs (fun o ho => hops o (List.mem_cons_of_mem op ho))

/-- C8 counterexample input: the coordinator's current session is "Y" and
    present in the store; the arriving fragment carries session id "X",
    which is absent from the store. -/
def c8ceState : BgState :=
  { sessionId := some "Y"
    recording := true
    totalEvents := Counters.zero
    segmentCount := 0
    store := [("Y", { startTime := 0, segments := [], pageMeta := [] })]
    pending := [] }

def c8ceMsg : FragmentMsg :=
  { sessionId := "X"
    segmentId := 1
    tabId := none
    url := "u"
    hostname := "h"
    timestamp := 100
    isSegmentEnd := false
    mouse := []
    clicks := [{ t := 100, x := 1, y := 2, button := "left",
                 target := none, dt_since_last := none }]
    keystrokes := []
    scroll := [] }

/-- C8 counterexample: a telemetry fragment carrying a session id absent
    from the durable store is NOT silently dropped — storeTelemetry ignores
    the carried id and files the fragment under the coordinator's current
    session, so the durable store changes. -/
theorem c8_counterexample :
    Store.get? c8ceState.store c8ceMsg.sessionId = none ∧
    (drainQueue (storeTelemetry c8ceMsg c8ceState)).store ≠ c8ceState.store ∧
    ((drainQueue (storeTelemetry c8ceMsg c8ceState)).store.get? "Y").map
        (fun sess => sess.segments.length) = some 1 := by decide

/-- C8 (amended): the drop condition the code implements is the
    coordinator's CURRENT session id being absent from the store (the
    carried session id is ignored).  When the current session is absent, the
    enqueued write leaves the durable store unchanged, no error is raised
    (the closure just returns), the queue is drained, and the coordinator's
    recording flag and session id are untouched, so later messages are
    processed as before — for telemetry fragments and page metadata alike.
    In-memory event counters are still incremented for a dropped fragment. -/
theorem c8_missing_session_dropped (s : BgState) (sid : String)
    (mf : FragmentMsg) (mm : PageMetaMsg)
    (hsid : s.sessionId = some sid) (habs : s.store.get? sid = none)
    (hq : s.pending = []) :
    (drainQueue (storeTelemetry mf s)).store = s.store ∧
    (drainQueue (storeTelemetry mf s)).sessionId = s.sessionId ∧
    (drainQueue (storeTelemetry mf s)).recording = s.recording ∧
    (drainQueue (storeTelemetry mf s)).pending = [] ∧
    (drainQueue (storePageMeta mm s)).store = s.store ∧
    (drainQueue (storePageMeta mm s)).pending = [] := by
  have hf := storeTelemetry_fields mf s
  have hm := storePageMeta_fields mm s
  have hops1 : ∀ op ∈ (storeTelemetry mf s).pending,
      (∃ f, op = WriteOp.putFragment f) ∨ (∃ m, op = WriteOp.putPageMeta m) := by
    rcases hf.2.2.2 with hp | hp <;> rw [hp, hq]
    · intro op hop; exact absurd hop (List.not_mem_nil op)
    · intro op hop
      simp only [List.nil_append, List.mem_singleton] at hop
      exact Or.inl ⟨fragOfMsg mf, hop⟩
  have hops2 : ∀ op ∈ (storePageMeta mm s).pending,
      (∃ f, op = WriteOp.putFragment f) ∨ (∃ m, op = WriteOp.putPageMeta m) := by
    rcases hm.2.2.2 with hp | hp <;> rw [hp, hq]
    · intro op hop; exact absurd hop (List.not_mem_nil op)
    · intro op hop
      simp only [List.nil_append, List.mem_singleton] at hop
      exact Or.inr ⟨metaOfMsg mm, hop⟩
  have hd1 : drainQueue (storeTelemetry mf s) =
      { storeTelemetry mf s with pending := [] } := by
    unfold drainQueue
    exact foldl_applyWriteOp_missing sid _ _
      (by simpa [hf.2.1] using hsid) (by simpa [hf.1] using habs)
      (fun op hop => hops1 op hop)
  have hd2 : drainQueue (storePageMeta mm s) =
      { storePageMeta mm s with pending := [] } := by
    unfold drainQueue
    exact foldl_applyWriteOp_missing sid _ _
      (by simpa [hm.2.1] using hsid) (by simpa [hm.1] using habs)
      (fun op hop => hops2 op hop)
  rw [hd1, hd2]
  exact ⟨hf.1, hf.2.1, hf.2.2.1, rfl, hm.1, rfl⟩

/-- C8 witness: after a clear raced with an in-flight flush, the current
    session "Z" is absent from the (empty) store; both a fragment and a
    metadata message leave the store unchanged. -/
theorem c8_missing_session_dropped_witness :
    (drainQueue (storeTelemetry c8ceMsg
        { sessionId := some "Z"
          recording := true
          totalEvents := Counters.zero
          segmentCount := 0
          store := []
          pending := [] })).store = [] ∧
    (drainQueue (storePageMeta
        { sessionId := "Z", url := "u", hostname := "h", clientHints := none,
          network := none, timestamp := 5 }
        { sessionId := some "Z"
          recording := true
          totalEvents := Counters.zero
          segmentCount := 0
          store := []
          pending := [] })).store = [] := by
  have h := c8_missing_session_dropped
    { sessionId := some "Z"
      recording := true
      totalEvents := Counters.zero
      segmentCount := 0
      store := []
      pending := [] } "Z" c8ceMsg
    { sessionId := "Z", url := "u", hostname := "h", clientHints := none,
      network := none, timestamp := 5 } rfl rfl rfl
  exact ⟨h.1, h.2.2.2.2.1⟩

/-! ### C2: export consolidation merges maximal same-id runs -/

theorem mergeInto_segmentId (cur : ConsolidatedSeg) (f : StoredFragment) :
    (mergeInto cur f).segmentId = cur.segmentId := rfl

theorem consolidateAux_run :
    ∀ (gs : List StoredFragment) (cur : ConsolidatedSeg) (f : StoredFragment)
      (rest : List StoredFragment),
    (∀ x ∈ gs, x.segmentId = cur.segmentId) → f.segmentId ≠ cur.segmentId →
    consolidateAux cur (gs ++ f :: rest) =
      (gs.foldl mergeInto cur) :: consolidate (f :: rest) := by
  intro gs
  induction gs with
  | nil =>
    intro cur f rest _ hne
    simp only [List.nil_append, consolidateAux, List.foldl_nil, consolidate]
    rw [if_neg (fun hc => hne (hc.symm))]
  | cons x gs ih =>
    intro cur f rest hall hne
    have hx : x.segmentId = cur.segmentId := hall x (List.mem_cons_self x gs)
    simp only [List.cons_append, consolidateAux, List.foldl_cons]
    rw [if_pos hx.symm]
    exact ih (mergeInto cur x) f rest
      (fun y hy => by rw [mergeInto_segmentId]; exact hall y (List.mem_cons_of_mem x hy))
      (by rw [mergeInto_segmentId]; exact hne)

theorem consolidateAux_all :
    ∀ (gs : List StoredFragment) (cur : ConsolidatedSeg),
    (∀ x ∈ gs, x.segmentId = cur.segmentId) →
    consolidateAux cur gs = [gs.foldl mergeInto cur] := by
  intro gs
  induction gs with
  | nil => intro cur _; rfl
  | cons x gs ih =>
    intro cur hall
    have hx : x.segmentId = cur.segmentId := hall x (List.mem_cons_self x gs)
    simp only [consolidateAux, List.foldl_cons]
    rw [if_pos hx.symm]
    exact ih (mergeInto cur x)
      (fun y hy => by rw [mergeInto_segmentId]; exact hall y (List.mem_cons_of_mem x hy))

theorem foldl_mergeInto_spec :
    ∀ (gs : List StoredFragment) (cur : ConsolidatedSeg),
    gs.foldl mergeInto cur =
      { cur with
        mouse := cur.mouse ++ (gs.map (fun f => f.mouse)).flatten
        clicks := cur.clicks ++ (gs.map (fun f => f.clicks)).flatten
        keystrokes := cur.keystrokes ++ (gs.map (fun f => f.keystrokes)).flatten
        scroll := cur.scroll ++ (gs.map (fun f => f.scroll)).flatten
        endTime := (gs.map (fun f => f.timestamp)).getLastD cur.endTime } := by
  intro gs
  induction gs with
  | nil => intro cur; simp
  | cons f gs ih =>
    intro cur
    rw [List.foldl_cons, ih (mergeInto cur f)]
    simp only [mergeInto, List.map_cons, List.flatten_cons, List.getLastD_cons,
      List.append_assoc]

theorem specMergedSeg_eq_foldl (g : StoredFragment) (gs : List StoredFragment) :
    specMergedSeg g gs = gs.foldl mergeInto (startSeg g) := by
  rw [foldl_mergeInto_spec gs (startSeg g)]
  rfl

/-- Scenario C fragments: two for segment 4 (non-terminal then terminal),
    one for segment 5 (terminal). -/
def c2f4a : StoredFragment :=
  { segmentId := 4, tabId := none, url := "u", hostname := "h",
    timestamp := 1000, isSegmentEnd := false, mouse := [],
    clicks := [{ t := 10, x := 1, y := 2, button := "left",
                 target := none, dt_since_last := none }],
    keystrokes := [], scroll := [] }

def c2f4b : StoredFragment :=
  { segmentId := 4, tabId := none, url := "u", hostname := "h",
    timestamp := 2000, isSegmentEnd := true, mouse := [], clicks := [],
    keystrokes := [{ field := "body", type := "down", t := 20,
                     dt_since_last := none, key := some "Enter" }],
    scroll := [] }

def c2f5 : StoredFragment :=
  { segmentId := 5, tabId := none, url := "u", hostname := "h",
    timestamp := 3000, isSegmentEnd := true, mouse := [], clicks := [],
    keystrokes := [],
    scroll := [{ t := 30, scrollX := 0, scrollY := 100, dx := 0, dy := 100,
                 dt_since_last := none }] }

/-- C2: export consolidation merges every maximal run of consecutive
    fragments sharing a segment id into one logical segment whose per-kind
    buffers are the in-order concatenation of the run's buffers, whose start
    time is the first fragment's timestamp and whose end time is the last
    fragment's; a differing segment id always opens a new logical segment
    (only inequality is assumed, so also when the id is not numerically
    larger).  The third conjunct is Scenario C: fragments (id=4
    non-terminal, id=4 terminal, id=5 terminal) consolidate to exactly two
    segments; the fourth shows an out-of-numeric-order id (5 then 4) still
    opens a new segment. -/
theorem c2_export_consolidation :
    (∀ (g : StoredFragment) (gs : List StoredFragment) (f : StoredFragment)
        (rest : List StoredFragment),
        (∀ x ∈ gs, x.segmentId = g.segmentId) → f.segmentId ≠ g.segmentId →
        consolidate (g :: gs ++ f :: rest) =
          specMergedSeg g gs :: consolidate (f :: rest)) ∧
    (∀ (g : StoredFragment) (gs : List StoredFragment),
        (∀ x ∈ gs, x.segmentId = g.segmentId) →
        consolidate (g :: gs) = [specMergedSeg g gs]) ∧
    (consolidate [c2f4a, c2f4b, c2f5] =
        [specMergedSeg c2f4a [c2f4b], startSeg c2f5] ∧
      (consolidate [c2f4a, c2f4b, c2f5]).length = 2) ∧
    consolidate [c2f5, c2f4a] = [startSeg c2f5, startSeg c2f4a] := by
  refine ⟨?_, ?_, by decide, by decide⟩
  · intro g gs f rest hall hne
    show consolidateAux (startSeg g) (gs ++ f :: rest) = _
    rw [consolidateAux_run gs (startSeg g) f rest hall hne,
      specMergedSeg_eq_foldl]
  · intro g gs hall
    show consolidateAux (startSeg g) gs = _
    rw [consolidateAux_all gs (startSeg g) hall, specMergedSeg_eq_foldl]

/-- C2 witness: the run-merging clause applied to the Scenario C fragments. -/
theorem c2_export_consolidation_witness :
    consolidate (c2f4a :: [c2f4b] ++ c2f5 :: []) =
      specMergedSeg c2f4a [c2f4b] :: consolidate [c2f5] :=
  c2_export_consolidation.1 c2f4a [c2f4b] c2f5 []
    (by decide) (by decide)

/-! ### C6: write-queue serialization — no lost updates -/

theorem find?_map_replace (sid : String) (sess : BgSession) :
    ∀ (st : Store),
    (st.map (fun p => if p.1 = sid then (sid, sess) else p)).find?
        (fun p => p.1 = sid) =
      if (st.find? (fun p => p.1 = sid)).isSome then some (sid, sess) else none := by
  intro st
  induction st with
  | nil => rfl
  | cons a tl ih =>
    by_cases ha : a.1 = sid
    · simp [ha]
    · simp only [List.map_cons, if_neg ha]
      rw [List.find?_cons_of_neg _ (by simpa using ha),
        List.find?_cons_of_neg _ (by simpa using ha), ih]

theorem Store.get?_put (st : Store) (sid : String) (sess : BgSession) :
    (st.put sid sess).get? sid = some sess := by
  unfold Store.put Store.get?
  split
  · next hfound =>
    rw [find?_map_replace sid sess st, if_pos hfound]
    rfl
  · next hnone =>
    have hn : st.find? (fun p => p.1 = sid) = none := by
      cases hfind : st.find? (fun p => p.1 = sid)
      · rfl
      · rw [hfind] at hnone; simp at hnone
    rw [List.find?_append, hn]
    simp

theorem applyWriteOp_putFragment_present (s : BgState) (sid : String)
    (sess : BgSession) (frag : StoredFragment)
    (hsid : s.sessionId = some sid) (hg : s.store.get? sid = some sess) :
    applyWriteOp s (WriteOp.putFragment frag) =
      { s with store := s.store.put sid { sess with segments := sess.segments ++ [frag] }
               segmentCount := (sess.segments ++ [frag]).length } := by
  simp [applyWriteOp, hsid, hg]

theorem foldl_applyWriteOp_putFragments :
    ∀ (frags : List StoredFragment) (s0 : BgState) (sid : String) (sess : BgSession),
    s0.sessionId = some sid → s0.store.get? sid = some sess →
    ((((frags.map WriteOp.putFragment).foldl applyWriteOp s0).store.get? sid).map
        (fun x => x.segments.length)) = some (sess.segments.length + frags.length) := by
  intro frags
  induction frags with
  | nil =>
    intro s0 sid sess _ hg
    simp [hg]
  | cons f frags ih =>
    intro s0 sid sess hsid hg
    rw [List.map_cons, List.foldl_cons,
      applyWriteOp_putFragment_present s0 sid sess f hsid hg]
    have hstep := ih
      { s0 with
        store := s0.store.put sid { sess with segments := sess.segments ++ [f] }
        segmentCount := (sess.segments ++ [f]).length }
      sid { sess with segments := sess.segments ++ [f] }
      hsid (Store.get?_put s0.store sid _)
    rw [hstep]
    simp only [List.length_append, List.length_cons, List.length_nil,
      Option.some.injEq]
    omega

theorem storeTelemetry_enqueues (mf : FragmentMsg) (s : BgState)
    (hr : s.recording = true) (hs : s.sessionId.isSome = true)
    (hd : fragHasData (fragOfMsg mf) = true) :
    (storeTelemetry mf s).pending = s.pending ++ [WriteOp.putFragment (fragOfMsg mf)] ∧
    (storeTelemetry mf s).store = s.store ∧
    (storeTelemetry mf s).sessionId = s.sessionId ∧
    (storeTelemetry mf s).recording = s.recording := by
  obtain ⟨v, hv⟩ := Option.isSome_iff_exists.mp hs
  simp only [storeTelemetry]
  rw [if_neg (by
    rintro (hcase | hcase)
    · rw [hr] at hcase; simp at hcase
    · rw [hv] at hcase; simp at hcase), if_neg (by simp [hd])]
  exact ⟨rfl, rfl, rfl, rfl⟩

theorem foldl_storeTelemetry :
    ∀ (msgs : List FragmentMsg) (s : BgState),
    s.recording = true → s.sessionId.isSome = true →
    (∀ m ∈ msgs, fragHasData (fragOfMsg m) = true) →
    (msgs.foldl (fun st m => storeTelemetry m st) s).pending =
        s.pending ++ msgs.map (fun m => WriteOp.putFragment (fragOfMsg m)) ∧
    (msgs.foldl (fun st m => storeTelemetry m st) s).store = s.store ∧
    (msgs.foldl (fun st m => storeTelemetry m st) s).sessionId = s.sessionId ∧
    (msgs.foldl (fun st m => storeTelemetry m st) s).recording = true := by
  intro msgs
  induction msgs with
  | nil => intro s hr hs _; exact ⟨by simp, rfl, rfl, hr⟩
  | cons m msgs ih =>
    intro s hr hs hd
    have h1 := storeTelemetry_enqueues m s hr hs
      (hd m (List.mem_cons_self m msgs))
    have h2 := ih (storeTelemetry m s) (h1.2.2.2.trans hr)
      (by rw [h1.2.2.1]; exact hs)
      (fun x hx => hd x (List.mem_cons_of_mem m hx))
    refine ⟨?_, h2.2.1.trans h1.2.1, h2.2.2.1.trans h1.2.2.1, h2.2.2.2⟩
    rw [List.foldl_cons, h2.1, h1.1, List.map_cons, List.append_assoc,
      List.singleton_append]

/-- C6: the write queue applies the read-modify-write of each fragment
    submission one at a time (drainQueue folds the queued closures in
    order, each one's write completing before the next starts), and for N
    submissions to the same existing session, each carrying at least one
    event record, the stored fragment list for that session grows by
    exactly N — no submission's update is lost. -/
theorem c6_write_queue_no_lost_updates (s : BgState) (sid : String)
    (sess : BgSession) (msgs : List FragmentMsg)
    (hr : s.recording = true) (hsid : s.sessionId = some sid)
    (hstore : s.store.get? sid = some sess) (hq : s.pending = [])
    (hdata : ∀ m ∈ msgs, fragHasData (fragOfMsg m) = true) :
    (((drainQueue (msgs.foldl (fun st m => storeTelemetry m st) s)).store.get? sid).map
        (fun x => x.segments.length)) = some (sess.segments.length + msgs.length) := by
  have hf := foldl_storeTelemetry msgs s hr (by rw [hsid]; rfl) hdata
  unfold drainQueue
  rw [hf.1, hq, List.nil_append]
  have hlen := foldl_applyWriteOp_putFragments
    (msgs.map (fun m => fragOfMsg m))
    { msgs.foldl (fun st m => storeTelemetry m st) s with pending := [] }
    sid sess (by show (msgs.foldl _ s).sessionId = some sid; rw [hf.2.2.1, hsid])
    (by show ((msgs.foldl _ s).store).get? sid = some sess; rw [hf.2.1, hstore])
  rw [List.map_map] at hlen
  simpa using hlen

/-- A one-click fragment message for the C6 witness. -/
def c6Msg : FragmentMsg :=
  { sessionId := "S"
    segmentId := 1
    tabId := none
    url := "u"
    hostname := "h"
    timestamp := 100
    isSegmentEnd := false
    mouse := []
    clicks := [{ t := 100, x := 1, y := 2, button := "left",
                 target := none, dt_since_last := none }]
    keystrokes := []
    scroll := [] }

/-- C6 witness: two concrete one-click fragments submitted to an existing
    empty session leave a stored fragment list of length 2. -/
theorem c6_write_queue_no_lost_updates_witness :
    (((drainQueue ([c6Msg, c6Msg].foldl (fun st m => storeTelemetry m st)
        { sessionId := some "S"
          recording := true
          totalEvents := Counters.zero
          segmentCount := 0
          store := [("S", { startTime := 0, segments := [], pageMeta := [] })]
          pending := [] })).store.get? "S").map
        (fun x => x.segments.length)) = some 2 := by
  have h := c6_write_queue_no_lost_updates
    { sessionId := some "S"
      recording := true
      totalEvents := Counters.zero
      segmentCount := 0
      store := [("S", { startTime := 0, segments := [], pageMeta := [] })]
      pending := [] } "S" { startTime := 0, segments := [], pageMeta := [] }
    [c6Msg, c6Msg] rfl rfl (by decide) rfl (by decide)
  simpa using h

/-! ### C4: segment ids across flushes, idle entry and wake -/

theorem segId_touchInteraction (t : Time) (s : ContentState) :
    s.segmentId ≤ (touchInteraction t s).segmentId := by
  simp only [touchInteraction]
  split
  · exact Nat.le_succ _
  · exact Nat.le_refl _

theorem segId_handleMouseMove (pos : MousePos) (t : Time) (s : ContentState) :
    s.segmentId ≤ (handleMouseMove pos t s).segmentId := by
  unfold handleMouseMove
  split
  · exact Nat.le_refl _
  · exact segId_touchInteraction t { s with lastMouseEvent := some pos }

theorem segId_sampleMousePosition (t : Time) (s : ContentState) :
    (sampleMousePosition t s).segmentId = s.segmentId := by
  unfold sampleMousePosition
  split
  · rfl
  · split
    · rfl
    · split
      · rfl
      · rfl

theorem segId_handleClick (ev : ClickEvt) (t : Time) (s : ContentState) :
    s.segmentId ≤ (handleClick ev t s).segmentId := by
  simp only [handleClick]
  split
  · exact Nat.le_refl _
  · split
    · exact Nat.le_refl _
    · split
      · exact segId_touchInteraction t s
      · exact segId_touchInteraction t s

theorem segId_handleKeyDown (ev : KeyEvt) (t : Time) (s : ContentState) :
    s.segmentId ≤ (handleKeyDown ev t s).segmentId := by
  simp only [handleKeyDown]
  split
  · exact Nat.le_refl _
  · split
    · exact Nat.le_refl _
    · split
      · exact segId_touchInteraction t s
      · exact segId_touchInteraction t s

theorem segId_handleKeyUp (ev : KeyEvt) (t : Time) (s : ContentState) :
    s.segmentId ≤ (handleKeyUp ev t s).segmentId := by
  simp only [handleKeyUp]
  split
  · exact Nat.le_refl _
  · split
    · exact Nat.le_refl _
    · split
      · exact segId_touchInteraction t s
      · exact segId_touchInteraction t s

theorem segId_handleScroll (sx sy : Int) (t : Time) (s : ContentState) :
    s.segmentId ≤ (handleScroll sx sy t s).segmentId := by
  simp only [handleScroll]
  split
  · exact Nat.le_refl _
  · split
    · exact Nat.le_refl _
    · split
      · exact segId_touchInteraction t s
      · split
        · exact segId_touchInteraction t s
        · exact segId_touchInteraction t s

theorem segId_flushBuffers (b : Bool) (t : Time) (s : ContentState) :
    (flushBuffers b t s).1.segmentId = s.segmentId ∧
    (∀ p, (flushBuffers b t s).2 = some p → p.segmentId = s.segmentId) := by
  unfold flushBuffers
  split
  · exact ⟨rfl, fun p hp => by simp at hp⟩
  · split
    · exact ⟨rfl, fun p hp => by simp at hp⟩
    · split
      · exact ⟨rfl, fun p hp => by simp at hp⟩
      · refine ⟨rfl, fun p hp => ?_⟩
        simp only [Option.some.injEq] at hp
        subst hp
        rfl

theorem segId_endCurrentSegment (t : Time) (s : ContentState) :
    (endCurrentSegment t s).1.segmentId = s.segmentId ∧
    (∀ p, (endCurrentSegment t s).2 = some p → p.segmentId = s.segmentId) := by
  have h := segId_flushBuffers true t s
  exact ⟨h.1, h.2⟩

theorem segId_handleVisibilityChange (hidden : Bool) (t : Time) (s : ContentState) :
    (handleVisibilityChange hidden t s).1.segmentId = s.segmentId ∧
    (∀ p, (handleVisibilityChange hidden t s).2 = some p →
      p.segmentId = s.segmentId) := by
  simp only [handleVisibilityChange]
  split
  · exact ⟨rfl, fun p hp => by simp at hp⟩
  · split
    · split
      · exact segId_endCurrentSegment t _
      · exact ⟨rfl, fun p hp => by simp at hp⟩
    · exact ⟨rfl, fun p hp => by simp at hp⟩

theorem segId_checkIdle (t : Time) (s : ContentState) :
    (checkIdle t s).1.segmentId = s.segmentId ∧
    (∀ p, (checkIdle t s).2 = some p → p.segmentId = s.segmentId) := by
  unfold checkIdle
  split
  · exact ⟨rfl, fun p hp => by simp at hp⟩
  · split
    · exact ⟨rfl, fun p hp => by simp at hp⟩
    · split
      · exact segId_endCurrentSegment t _
      · exact ⟨rfl, fun p hp => by simp at hp⟩

theorem segId_periodicFlush (t : Time) (s : ContentState) :
    (periodicFlush t s).1.segmentId = s.segmentId ∧
    (∀ p, (periodicFlush t s).2 = some p → p.segmentId = s.segmentId) := by
  unfold periodicFlush
  split
  · exact ⟨rfl, fun p hp => by simp at hp⟩
  · split
    · exact segId_flushBuffers false t _
    · exact ⟨rfl, fun p hp => by simp at hp⟩

theorem segId_stopRecordingC (t : Time) (s : ContentState) :
    (stopRecordingC t s).1.segmentId = s.segmentId ∧
    (∀ p, (stopRecordingC t s).2 = some p → p.segmentId = s.segmentId) := by
  unfold stopRecordingC
  split
  · exact ⟨rfl, fun p hp => by simp at hp⟩
  · have h := segId_flushBuffers true t { s with recording := false }
    exact ⟨h.1, h.2⟩

theorem segId_step (s : ContentState) (t : Time) (e : Ev) :
    s.segmentId ≤ (step s t e).1.segmentId ∧
    (∀ p, (step s t e).2 = some p →
      p.segmentId = s.segmentId ∧ (step s t e).1.segmentId = s.segmentId) := by
  cases e with
  | mouseMove pos =>
    exact ⟨segId_handleMouseMove pos t s, fun p hp => by simp [step] at hp⟩
  | mouseTick =>
    exact ⟨(segId_sampleMousePosition t s).ge, fun p hp => by simp [step] at hp⟩
  | click ev => exact ⟨segId_handleClick ev t s, fun p hp => by simp [step] at hp⟩
  | keyDown ev => exact ⟨segId_handleKeyDown ev t s, fun p hp => by simp [step] at hp⟩
  | keyUp ev => exact ⟨segId_handleKeyUp ev t s, fun p hp => by simp [step] at hp⟩
  | scroll sx sy => exact ⟨segId_handleScroll sx sy t s, fun p hp => by simp [step] at hp⟩
  | visibility hidden =>
    have h := segId_handleVisibilityChange hidden t s
    exact ⟨h.1.ge, fun p hp => ⟨h.2 p hp, h.1⟩⟩
  | idleTick =>
    have h := segId_checkIdle t s
    exact ⟨h.1.ge, fun p hp => ⟨h.2 p hp, h.1⟩⟩
  | flushTick =>
    have h := segId_periodicFlush t s
    exact ⟨h.1.ge, fun p hp => ⟨h.2 p hp, h.1⟩⟩
  | stopCmd =>
    have h := segId_stopRecordingC t s
    exact ⟨h.1.ge, fun p hp => ⟨h.2 p hp, h.1⟩⟩

theorem runEvents_ids_ge (evs : List (Time × Ev)) : ∀ (s : ContentState)
    (p : Payload), p ∈ (runEvents s evs).2 → s.segmentId ≤ p.segmentId := by
  induction evs with
  | nil => intro s p hp; simp [runEvents] at hp
  | cons te rest ih =>
    intro s p hp
    obtain ⟨t, e⟩ := te
    have hstep := segId_step s t e
    simp only [runEvents, List.mem_append] at hp
    rcases hp with hp | hp
    · cases ho : (step s t e).2 with
      | none => rw [ho] at hp; simp at hp
      | some q =>
        rw [ho] at hp
        simp only [Option.toList_some, List.mem_singleton] at hp
        subst hp
        exact (hstep.2 p ho).1.ge
    · exact le_trans hstep.1 (ih (step s t e).1 p hp)

theorem runEvents_ids_chain (evs : List (Time × Ev)) : ∀ (s : ContentState),
    List.Chain' (· ≤ ·) ((runEvents s evs).2.map (fun p => p.segmentId)) := by
  induction evs with
  | nil => intro s; simp [runEvents]
  | cons te rest ih =>
    intro s
    obtain ⟨t, e⟩ := te
    show List.Chain' (· ≤ ·)
      (((step s t e).2.toList ++ (runEvents (step s t e).1 rest).2).map
        (fun p => p.segmentId))
    cases ho : (step s t e).2 with
    | none => simpa using ih (step s t e).1
    | some q =>
      rw [List.map_append]
      simp only [Option.toList_some, List.map_cons, List.map_nil,
        List.singleton_append]
      rw [List.chain'_cons']
      refine ⟨?_, ih (step s t e).1⟩
      intro y hy
      rw [List.head?_map] at hy
      cases hh : (runEvents (step s t e).1 rest).2.head? with
      | none => rw [hh] at hy; simp at hy
      | some q2 =>
        rw [hh] at hy
        simp only [Option.map_some, Option.map_some', Option.mem_def,
          Option.some.injEq] at hy
        subst hy
        have hq2 := runEvents_ids_ge rest (step s t e).1 q2
          (List.mem_of_mem_head? hh)
        have hq := (segId_step s t e).2 q ho
        rw [hq.1]
        exact le_trans hq.2.ge hq2

/-- The concrete run refuting strict increase of flush segment ids: a
    periodic flush of segment 1's mouse data, a click, then the idle-entry
    terminal flush of the same segment — two payloads, both with id 1. -/
def c4ceEvs : List (Time × Ev) :=
  [(100, .mouseMove ⟨5, 5, 5, 5⟩), (115, .mouseTick), (5000, .flushTick),
   (5100, .click ⟨1, 2, 0, none⟩), (8200, .idleTick), (9000, .stopCmd)]

/-- C4 counterexample: a segment is flushed incrementally (periodic flush
    plus terminal flush), so two emitted payloads share segment id 1 and the
    sequence of flush segment ids is not strictly increasing. -/
theorem c4_counterexample :
    ((runFromStart "u" "h" "sess" 0 c4ceEvs).2.map (fun p => p.segmentId)) = [1, 1] ∧
    ¬ List.Chain' (· < ·)
      ((runFromStart "u" "h" "sess" 0 c4ceEvs).2.map (fun p => p.segmentId)) := by
  have h : ((runFromStart "u" "h" "sess" 0 c4ceEvs).2.map
      (fun p => p.segmentId)) = [1, 1] := by decide
  refine ⟨h, ?_⟩
  rw [h]
  intro hc
  rw [List.chain'_cons] at hc
  exact absurd hc.1 (by decide)

/-- C4 (amended): within one recording run, the sequence of segment ids
    under which flushes are emitted is nondecreasing (not strictly
    increasing, since one segment may be flushed several times); entering
    Idle — whether by the idle-threshold check or by the page becoming
    hidden — emits exactly one terminal flush with the segment id
    unchanged; and an Idle → Active wake on any qualifying interaction
    (pointer move, click, keydown, keyup, scroll) emits nothing,
    increments the segment id, and clears all buffers and
    per-field/per-stream delta trackers before any new record is
    buffered — so a waking click/key/scroll record lands alone in a fresh
    buffer with a null delta, and a waking pointer move leaves all
    buffers empty. -/
theorem c4_segment_id_discipline :
    (∀ (u hn sid : String) (t0 : Time) (evs : List (Time × Ev)),
      List.Chain' (· ≤ ·)
        ((runFromStart u hn sid t0 evs).2.map (fun p => p.segmentId))) ∧
    (∀ (s : ContentState) (t : Time) (sid : String),
      s.idleCheckOn = true → s.recording = true → s.isIdle = false →
      s.sessionId = some sid →
      t - s.lastInteractionTime ≥ IDLE_THRESHOLD_MS →
      ∃ p, (step s t .idleTick).2 = some p ∧ p.isSegmentEnd = true ∧
        p.segmentId = s.segmentId ∧
        (step s t .idleTick).1.segmentId = s.segmentId ∧
        (step s t .idleTick).1.isIdle = true) ∧
    (∀ (s : ContentState) (t : Time) (sid : String),
      s.listenersAttached = true → s.recording = true → s.isIdle = false →
      s.sessionId = some sid →
      ∃ p, (step s t (.visibility true)).2 = some p ∧ p.isSegmentEnd = true ∧
        p.segmentId = s.segmentId ∧
        (step s t (.visibility true)).1.segmentId = s.segmentId ∧
        (step s t (.visibility true)).1.isIdle = true) ∧
    (∀ (s : ContentState) (t : Time) (pos : MousePos),
      s.listenersAttached = true → s.recording = true → s.isIdle = true →
      (step s t (.mouseMove pos)).2 = none ∧
      (step s t (.mouseMove pos)).1.segmentId = s.segmentId + 1 ∧
      (step s t (.mouseMove pos)).1.mouseBuffer = [] ∧
      (step s t (.mouseMove pos)).1.clickBuffer = [] ∧
      (step s t (.mouseMove pos)).1.keystrokeBuffer = [] ∧
      (step s t (.mouseMove pos)).1.scrollBuffer = [] ∧
      (step s t (.mouseMove pos)).1.lastClickTimestamp = none ∧
      (step s t (.mouseMove pos)).1.lastKeyTimestampByField = [] ∧
      (step s t (.mouseMove pos)).1.lastScrollTimestamp = none) ∧
    (∀ (s : ContentState) (t : Time) (ev : ClickEvt),
      s.listenersAttached = true → s.recording = true → s.isIdle = true →
      (step s t (.click ev)).2 = none ∧
      (step s t (.click ev)).1.segmentId = s.segmentId + 1 ∧
      (step s t (.click ev)).1.mouseBuffer = [] ∧
      (step s t (.click ev)).1.keystrokeBuffer = [] ∧
      (step s t (.click ev)).1.scrollBuffer = [] ∧
      (step s t (.click ev)).1.lastKeyTimestampByField = [] ∧
      (step s t (.click ev)).1.lastScrollTimestamp = none ∧
      (step s t (.click ev)).1.clickBuffer =
        [{ t := t, x := ev.x, y := ev.y, button := buttonName ev.button,
           target := ev.target.map targetInfoOf, dt_since_last := none }]) ∧
    (∀ (s : ContentState) (t : Time) (ev : KeyEvt),
      s.listenersAttached = true → s.recording = true → s.isIdle = true →
      (step s t (.keyDown ev)).2 = none ∧
      (step s t (.keyDown ev)).1.segmentId = s.segmentId + 1 ∧
      (step s t (.keyDown ev)).1.mouseBuffer = [] ∧
      (step s t (.keyDown ev)).1.clickBuffer = [] ∧
      (step s t (.keyDown ev)).1.scrollBuffer = [] ∧
      (step s t (.keyDown ev)).1.lastClickTimestamp = none ∧
      (step s t (.keyDown ev)).1.lastScrollTimestamp = none ∧
      (step s t (.keyDown ev)).1.keystrokeBuffer =
        [{ field := getFieldId ev.target, type := "down", t := t,
           dt_since_last := none,
           key := if LOGGABLE_KEYS.contains ev.key then some ev.key
                  else none }]) ∧
    (∀ (s : ContentState) (t : Time) (ev : KeyEvt),
      s.listenersAttached = true → s.recording = true → s.isIdle = true →
      (step s t (.keyUp ev)).2 = none ∧
      (step s t (.keyUp ev)).1.segmentId = s.segmentId + 1 ∧
      (step s t (.keyUp ev)).1.mouseBuffer = [] ∧
      (step s t (.keyUp ev)).1.clickBuffer = [] ∧
      (step s t (.keyUp ev)).1.scrollBuffer = [] ∧
      (step s t (.keyUp ev)).1.lastClickTimestamp = none ∧
      (step s t (.keyUp ev)).1.lastKeyTimestampByField = [] ∧
      (step s t (.keyUp ev)).1.lastScrollTimestamp = none ∧
      (step s t (.keyUp ev)).1.keystrokeBuffer =
        [{ field := getFieldId ev.target, type := "up", t := t,
           dt_since_last := none,
           key := if LOGGABLE_KEYS.contains ev.key then some ev.key
                  else none }]) ∧
    (∀ (s : ContentState) (t : Time) (sx sy : Int),
      s.listenersAttached = true → s.recording = true → s.isIdle = true →
      (step s t (.scroll sx sy)).2 = none ∧
      (step s t (.scroll sx sy)).1.segmentId = s.segmentId + 1 ∧
      (step s t (.scroll sx sy)).1.mouseBuffer = [] ∧
      (step s t (.scroll sx sy)).1.clickBuffer = [] ∧
      (step s t (.scroll sx sy)).1.keystrokeBuffer = [] ∧
      (step s t (.scroll sx sy)).1.lastClickTimestamp = none ∧
      (step s t (.scroll sx sy)).1.lastKeyTimestampByField = [] ∧
      (step s t (.scroll sx sy)).1.scrollBuffer =
        [{ t := t, scrollX := sx, scrollY := sy, dx := sx - s.lastScrollX,
           dy := sy - s.lastScrollY, dt_since_last := none }]) := by
  refine ⟨?_, ?_, ?_, ?_, ?_, ?_, ?_, ?_⟩
  · intro u hn sid t0 evs
    exact runEvents_ids_chain evs _
  · intro s t sid h1 h2 h3 h4 h5
    simp [step, checkIdle, endCurrentSegment, flushBuffers, h1, h2, h3, h4, h5]
  · intro s t sid h1 h2 h3 h4
    simp [step, handleVisibilityChange, endCurrentSegment, flushBuffers,
      h1, h2, h3, h4]
  · intro s t pos h1 _h2 h3
    simp [step, handleMouseMove, touchInteraction, startNewSegment, h1, h3]
  · intro s t ev h1 h2 h3
    simp [step, handleClick, touchInteraction, startNewSegment, lookupField,
      h1, h2, h3]
  · intro s t ev h1 h2 h3
    simp [step, handleKeyDown, touchInteraction, startNewSegment, lookupField,
      h1, h2, h3]
  · intro s t ev h1 h2 h3
    simp [step, handleKeyUp, touchInteraction, startNewSegment, lookupField,
      h1, h2, h3]
  · intro s t sx sy h1 h2 h3
    simp [step, handleScroll, touchInteraction, startNewSegment,
      SCROLL_THROTTLE_MS, h1, h2, h3]

/-- C4 witness: both idle-entry clauses (idle threshold exceeded at t=3200;
    page hidden at t=500) and two wake clauses (a waking click and a waking
    scroll at t=4000) at concrete recording states. -/
theorem c4_segment_id_discipline_witness :
    (∃ p, (step { startRecordingC "sess" 0 (initialState "u" "h") with
        lastInteractionTime := 0 } 3200 .idleTick).2 = some p ∧
      p.isSegmentEnd = true ∧ p.segmentId = 1) ∧
    (∃ p, (step (startRecordingC "sess" 0 (initialState "u" "h")) 500
        (.visibility true)).2 = some p ∧
      p.isSegmentEnd = true ∧ p.segmentId = 1) ∧
    (step { startRecordingC "sess" 0 (initialState "u" "h") with
        isIdle := true } 4000 (.click ⟨1, 2, 0, none⟩)).1.segmentId = 2 ∧
    (step { startRecordingC "sess" 0 (initialState "u" "h") with
        isIdle := true } 4000 (.scroll 0 100)).1.segmentId = 2 := by
  refine ⟨?_, ?_, ?_, ?_⟩
  · obtain ⟨p, hp, hterm, hid, -⟩ := c4_segment_id_discipline.2.1
      { startRecordingC "sess" 0 (initialState "u" "h") with
        lastInteractionTime := 0 } 3200 "sess" rfl rfl rfl rfl (by decide)
    exact ⟨p, hp, hterm, hid⟩
  · obtain ⟨p, hp, hterm, hid, -⟩ := c4_segment_id_discipline.2.2.1
      (startRecordingC "sess" 0 (initialState "u" "h")) 500 "sess"
      rfl rfl rfl rfl
    exact ⟨p, hp, hterm, hid⟩
  · exact (c4_segment_id_discipline.2.2.2.2.1
      { startRecordingC "sess" 0 (initialState "u" "h") with
        isIdle := true } 4000 ⟨1, 2, 0, none⟩ rfl rfl rfl).2.1
  · exact (c4_segment_id_discipline.2.2.2.2.2.2.2
      { startRecordingC "sess" 0 (initialState "u" "h") with
        isIdle := true } 4000 0 100 rfl rfl rfl).2.1

end TM
